import Mathlib

/-!
Shallow embedding of the DropboxService class from
src/services/dropboxService.js.

Conventions used throughout:
* instants are integers (milliseconds since the epoch); every operation
  receives a single `now` parameter standing for the calls to Date.now()
  made during that operation;
* a JavaScript Date object is modelled by `JSDate`: either a valid
  instant or the Invalid Date produced by new Date(NaN);
* nullable strings are `Option String`; JavaScript truthiness of a
  string field (null, undefined and the empty string are falsy) is the
  predicate `jsFalsy`;
* each network interaction is driven by an oracle recorded in
  `RefreshOutcome` (for the oauth2/token exchange) or `RemoteEnv` (for
  the file-store calls), so that one run of an operation is a pure
  function of the state, the clock and the oracles;
* an async function that can reject returns `Except String`, the error
  string being the message of the thrown Error.
-/

/-- A JavaScript Date: `JSDate.valid ms` is a valid date, `JSDate.invalid`
is the Invalid Date whose getTime() is NaN (every NaN comparison is
false) and whose toISOString() throws. -/
inductive JSDate
  | invalid
  | valid (ms : Int)
deriving DecidableEq

/-- JavaScript truthiness test for a nullable string: null, undefined
and the empty string are falsy. -/
def jsFalsy : Option String → Bool
  | none => true
  | some s => s == ""

/-- Token-lifecycle state of the DropboxService instance: the three
credentials loaded from the environment at construction, plus the
mutable accessToken and tokenExpiresAt fields. -/
structure TokenState where
  appKey : Option String
  appSecret : Option String
  refreshToken : Option String
  accessToken : Option String
  tokenExpiresAt : Option JSDate
deriving DecidableEq

/-- Outcome of the POST oauth2/token exchange: either the request
itself throws (network error or non-2xx status), or it yields a 2xx
body whose access_token and expires_in fields may each be absent
(a malformed body destructures to undefined). -/
inductive RefreshOutcome
  | httpError (msg : String)
  | success (access_token : Option String) (expires_in : Option Int)
deriving DecidableEq

/-- True when all three OAuth credentials are present and non-empty
(the truthiness check at the top of refreshAccessToken). -/
def credsPresent (st : TokenState) : Bool :=
  !(jsFalsy st.appKey || jsFalsy st.appSecret || jsFalsy st.refreshToken)

/-- refreshAccessToken (dropboxService.js lines 23-55): exchanges the
refresh token for a new access token.  On a 2xx body it assigns
accessToken and tokenExpiresAt = new Date(now + expires_in * 1000)
first, then logs tokenExpiresAt.toISOString(); when expires_in was
absent that date is invalid and toISOString throws after the state was
already mutated, and the catch block rethrows.  On a request failure
(or missing credentials) nothing was assigned, so the state is
unchanged. -/
def refreshAccessToken (st : TokenState) (now : Int) (o : RefreshOutcome) :
    TokenState × Except String (Option String) :=
  if !credsPresent st then
    (st, Except.error "Failed to refresh token: Missing Dropbox OAuth credentials")
  else
    match o with
    | RefreshOutcome.httpError msg =>
        (st, Except.error ("Failed to refresh token: " ++ msg))
    | RefreshOutcome.success tok ein =>
        let expires : JSDate :=
          match ein with
          | some e => JSDate.valid (now + e * 1000)
          | none => JSDate.invalid
        let st' : TokenState :=
          { st with accessToken := tok, tokenExpiresAt := some expires }
        match expires with
        | JSDate.invalid =>
            (st', Except.error "Failed to refresh token: Invalid time value")
        | JSDate.valid _ => (st', Except.ok tok)

/-- The staleness test of refreshTokenIfNeeded (line 64):
!accessToken || !tokenExpiresAt || now >= getTime() - 600000.
An Invalid Date object is truthy and its NaN comparison is false. -/
def tokenStale (st : TokenState) (now : Int) : Bool :=
  jsFalsy st.accessToken || st.tokenExpiresAt.isNone ||
    (match st.tokenExpiresAt with
     | some (JSDate.valid ms) => decide (ms - 600000 ≤ now)
     | _ => false)

/-- refreshTokenIfNeeded (lines 60-69): refreshes when the token is
stale, then returns this.accessToken.  The third component counts how
many refreshAccessToken calls were performed. -/
def refreshTokenIfNeeded (st : TokenState) (now : Int) (o : RefreshOutcome) :
    TokenState × Except String (Option String) × Nat :=
  if tokenStale st now then
    let r := refreshAccessToken st now o
    match r.2 with
    | Except.error e => (r.1, Except.error e, 1)
    | Except.ok _ => (r.1, Except.ok r.1.accessToken, 1)
  else
    (st, Except.ok st.accessToken, 0)

/-- getValidToken (lines 74-77): refreshTokenIfNeeded then return
this.accessToken. -/
def getValidToken (st : TokenState) (now : Int) (o : RefreshOutcome) :
    TokenState × Except String (Option String) :=
  let r := refreshTokenIfNeeded st now o
  match r.2.1 with
  | Except.error e => (r.1, Except.error e)
  | Except.ok _ => (r.1, Except.ok r.1.accessToken)

/-- Condition under which getValidToken is guaranteed to succeed: the
stored token is still fresh, or the credentials are present and the
exchange returns a body with both fields. -/
def refreshWellFormed : RefreshOutcome → Bool
  | RefreshOutcome.success _ (some _) => true
  | _ => false

def authOk (st : TokenState) (now : Int) (o : RefreshOutcome) : Prop :=
  tokenStale st now = false ∨ (credsPresent st = true ∧ refreshWellFormed o = true)

/-- The token state after a successful refresh: credentials untouched,
accessToken and tokenExpiresAt overwritten. -/
def refreshedState (st : TokenState) (tok : Option String) (d : JSDate) : TokenState :=
  { st with accessToken := tok, tokenExpiresAt := some d }

lemma credsPresent_update (st : TokenState) (tok : Option String) (d : Option JSDate) :
    credsPresent { st with accessToken := tok, tokenExpiresAt := d } = credsPresent st := rfl

lemma getValidToken_ok (st : TokenState) (now : Int) (o : RefreshOutcome)
    (h : authOk st now o) :
    ∃ st' tok, getValidToken st now o = (st', Except.ok tok) ∧ authOk st' now o := by
  unfold getValidToken refreshTokenIfNeeded
  cases hstale : tokenStale st now with
  | false =>
      exact ⟨st, st.accessToken, rfl, Or.inl hstale⟩
  | true =>
      rcases h with h | ⟨hc, hw⟩
      · simp [hstale] at h
      · cases o with
        | httpError msg => simp [refreshWellFormed] at hw
        | success tok ein =>
            cases ein with
            | none => simp [refreshWellFormed] at hw
            | some e =>
                have hra : refreshAccessToken st now (RefreshOutcome.success tok (some e)) =
                    (refreshedState st tok (JSDate.valid (now + e * 1000)), Except.ok tok) := by
                  unfold refreshAccessToken refreshedState
                  simp [hc]
                refine ⟨refreshedState st tok (JSDate.valid (now + e * 1000)), tok, ?_, ?_⟩
                · simp [hra, refreshedState]
                · exact Or.inr ⟨hc, hw⟩

/-- A design location embedded in a quote (name, width, height,
quantity, with the alternative short keys the template accepts). -/
structure Location where
  name : Option String
  width : Option Int
  height : Option Int
  quantity : Option Int
deriving DecidableEq

/-- The caller-supplied quote record handed to saveQuote.  The
free-form data and pricing maps are association lists of string keys
and string values. -/
structure QuoteData where
  id : String
  quote_name : String
  customer_id : String
  customer_email : Option String
  date_created : Int
  data : List (String × String)
  locations : List Location
  total_transfers : Int
  pricing : List (String × String)
deriving DecidableEq

/-- The metadata document saveQuote writes: every field of the quote
record plus the derived file_path and the save-time last_updated
timestamp. -/
structure QuoteMeta where
  id : String
  quote_name : String
  customer_id : String
  customer_email : Option String
  date_created : Int
  data : List (String × String)
  locations : List Location
  total_transfers : Int
  pricing : List (String × String)
  file_path : String
  last_updated : Int
deriving DecidableEq

/-- A logo metadata record: the referenced binary filename plus the
rest of the free-form map. -/
structure LogoData where
  filename : String
  fields : List (String × String)
deriving DecidableEq

/-- Contents of a file held by the remote store.  Serialization is
modelled structurally: a metadata upload stores the JSON value itself,
and JSON.parse succeeds exactly on documents that are JSON of the
expected shape. -/
inductive Content
  | doc (s : String)
  | metaJson (m : QuoteMeta)
  | logoJson (l : LogoData)
deriving DecidableEq

/-- The remote file store: an association list from path to content. -/
def Store : Type := List (String × Content)

def storeLookup : Store → String → Option Content
  | [], _ => none
  | (p', c) :: rest, p => if p' = p then some c else storeLookup rest p

def storeInsert : Store → String → Content → Store
  | [], p, c => [(p, c)]
  | (p', c') :: rest, p, c =>
      if p' = p then (p, c) :: rest else (p', c') :: storeInsert rest p c

def storeErase : Store → String → Store
  | [], _ => []
  | (p', c) :: rest, p => if p' = p then rest else (p', c) :: storeErase rest p

lemma storeLookup_insert_self (s : Store) (p : String) (c : Content) :
    storeLookup (storeInsert s p c) p = some c := by
  induction s with
  | nil => simp [storeInsert, storeLookup]
  | cons hd tl ih =>
      by_cases h : hd.1 = p
      · simp [storeInsert, storeLookup, h]
      · simp only [storeInsert]
        cases hd with
        | mk p' c' =>
            simp only at h
            simp [storeLookup, h, ih]

/-- A directory entry returned by files/list_folder. -/
structure Entry where
  name : String
  path_lower : String
deriving DecidableEq

/-- Oracles describing how the remote file-store API behaves during one
operation: forced failures per path for upload, download and delete, a
possible failure of the folder listing, the outcomes of the two
sharing endpoints, and the locale date formatter used by
toLocaleDateString. -/
structure RemoteEnv where
  refreshOutcome : RefreshOutcome
  uploadFail : String → Option String
  downloadFail : String → Option String
  deleteFail : String → Option String
  listFail : Option String
  createLinkResult : String → Except String String
  listLinksResult : String → Except String (List String)
  localeFormat : Int → String

/-- uploadFile (lines 841-855): POST files/upload with mode overwrite;
on success the path now maps to the uploaded content. -/
def uploadFile (store : Store) (path : String) (content : Content)
    (env : RemoteEnv) : Except String Store :=
  match env.uploadFail path with
  | some e => Except.error e
  | none => Except.ok (storeInsert store path content)

/-- downloadFile (lines 860-869): POST files/download; fails when the
transport fails or the path does not exist. -/
def downloadFile (store : Store) (path : String) (env : RemoteEnv) :
    Except String Content :=
  match env.downloadFail path with
  | some e => Except.error e
  | none =>
      match storeLookup store path with
      | some c => Except.ok c
      | none => Except.error ("path/not_found/" ++ path)

/-- deleteFile (lines 874-885): POST files/delete_v2; fails when the
transport fails or the path does not exist. -/
def deleteFile (store : Store) (path : String) (env : RemoteEnv) :
    Except String Store :=
  match env.deleteFail path with
  | some e => Except.error e
  | none =>
      if (storeLookup store path).isSome then Except.ok (storeErase store path)
      else Except.error ("path_lookup/not_found/" ++ path)

/-- createSharedLink (lines 890-932): try to create a shared link,
rewriting the dl=0 query to raw=1; on failure fall back to listing
existing links and take the first; if that also yields nothing,
rethrow the original creation error. -/
def createSharedLink (path : String) (env : RemoteEnv) : Except String String :=
  match env.createLinkResult path with
  | Except.ok url => Except.ok (url.replace "?dl=0" "?raw=1")
  | Except.error e =>
      match env.listLinksResult path with
      | Except.ok (u :: _) => Except.ok (u.replace "?dl=0" "?raw=1")
      | Except.ok [] => Except.error e
      | Except.error _ => Except.error e

/-- JSON.parse of a downloaded quote metadata document. -/
def parseQuoteMeta : Content → Except String QuoteMeta
  | Content.metaJson m => Except.ok m
  | _ => Except.error "Unexpected token in JSON"

/-- JSON.parse of a downloaded logo metadata document. -/
def parseLogoData : Content → Except String LogoData
  | Content.logoJson l => Except.ok l
  | _ => Except.error "Unexpected token in JSON"

/-- The raw text of a downloaded file, as seen by callers that treat it
as a string (the serialized form of JSON documents is not modelled). -/
def contentText : Content → String
  | Content.doc s => s
  | Content.metaJson _ => ""
  | Content.logoJson _ => ""

/-- generateFileName (lines 287-290): every character of the quote name
outside a-zA-Z0-9 becomes an underscore, then _id.html is appended. -/
def generateFileName (q : QuoteData) : String :=
  let safeName := String.mk (q.quote_name.data.map
    (fun c => if c.isAlphanum then c else '_'))
  safeName ++ "_" ++ q.id ++ ".html"

/-- generateQuoteHtml (lines 295-836) renders a large static HTML
template around the record.  Only the record-dependent skeleton is
kept: the title line and the per-location lines; the surrounding CSS
and boilerplate markup carry no information about the record. -/
def generateQuoteHtml (q : QuoteData) : String :=
  let locLine := fun (l : Location) =>
    (l.name.getD "Location") ++ ":" ++ toString (l.width.getD 0) ++ "x"
      ++ toString (l.height.getD 0) ++ "x" ++ toString (l.quantity.getD 0)
  "DTF Quote: " ++ q.quote_name ++ "|"
    ++ String.intercalate ";" (q.locations.map locLine)
    ++ "|transfers:" ++ toString q.total_transfers

/-- The metadata object built inside saveQuote (lines 95-107). -/
def quoteMetadataOf (q : QuoteData) (filePath : String) (now : Int) : QuoteMeta :=
  { id := q.id, quote_name := q.quote_name, customer_id := q.customer_id,
    customer_email := q.customer_email, date_created := q.date_created,
    data := q.data, locations := q.locations,
    total_transfers := q.total_transfers, pricing := q.pricing,
    file_path := filePath, last_updated := now }

/-- The success envelope returned by saveQuote (lines 132-139). -/
structure SaveEnvelope where
  success : Bool
  message : String
  quote_id : String
  file_path : String
  download_url : Option String
  metadata : QuoteMeta
deriving DecidableEq

/-- saveQuote (lines 82-145): obtain a token, upload the rendered
document, upload the metadata document, then best-effort create a
shared link (its failure is caught and yields a null download_url).
Uploads that already happened persist even when a later step fails. -/
def saveQuote (st : TokenState) (store : Store) (q : QuoteData) (isUpdate : Bool)
    (env : RemoteEnv) (now : Int) :
    TokenState × Store × Except String SaveEnvelope :=
  let gv := getValidToken st now env.refreshOutcome
  match gv.2 with
  | Except.error e => (gv.1, store, Except.error ("Failed to save quote: " ++ e))
  | Except.ok _token =>
      let filePath := "/dtf-quotes/" ++ generateFileName q
      match uploadFile store filePath (Content.doc (generateQuoteHtml q)) env with
      | Except.error e => (gv.1, store, Except.error ("Failed to save quote: " ++ e))
      | Except.ok store1 =>
          let metadata := quoteMetadataOf q filePath now
          let metadataPath := "/dtf-quotes/" ++ q.id ++ "_metadata.json"
          match uploadFile store1 metadataPath (Content.metaJson metadata) env with
          | Except.error e =>
              (gv.1, store1, Except.error ("Failed to save quote: " ++ e))
          | Except.ok store2 =>
              let shareUrl : Option String :=
                match createSharedLink filePath env with
                | Except.ok url => some url
                | Except.error _ => none
              (gv.1, store2, Except.ok
                { success := true,
                  message := if isUpdate then "Quote updated successfully"
                             else "Quote saved successfully",
                  quote_id := q.id, file_path := filePath,
                  download_url := shareUrl, metadata := metadata })

/-- Result of loadQuote: the parsed metadata when format is json, the
raw document text otherwise. -/
inductive LoadResult
  | meta (m : QuoteMeta)
  | html (s : String)
deriving DecidableEq

/-- loadQuote (lines 150-170): obtain a token, download and parse the
metadata document; for a non-json format additionally download the
rendered document at metadata.file_path. -/
def loadQuote (st : TokenState) (store : Store) (quoteId : String)
    (format : String) (env : RemoteEnv) (now : Int) :
    TokenState × Except String LoadResult :=
  let gv := getValidToken st now env.refreshOutcome
  match gv.2 with
  | Except.error e => (gv.1, Except.error ("Failed to load quote: " ++ e))
  | Except.ok _token =>
      let metadataPath := "/dtf-quotes/" ++ quoteId ++ "_metadata.json"
      match downloadFile store metadataPath env with
      | Except.error e => (gv.1, Except.error ("Failed to load quote: " ++ e))
      | Except.ok content =>
          match parseQuoteMeta content with
          | Except.error e => (gv.1, Except.error ("Failed to load quote: " ++ e))
          | Except.ok metadata =>
              if format = "json" then (gv.1, Except.ok (LoadResult.meta metadata))
              else
                match downloadFile store metadata.file_path env with
                | Except.error e =>
                    (gv.1, Except.error ("Failed to load quote: " ++ e))
                | Except.ok c => (gv.1, Except.ok (LoadResult.html (contentText c)))

/-- The success envelope returned by deleteQuote (lines 210-214). -/
structure DeleteEnvelope where
  success : Bool
  message : String
  deleted_quote_id : String
deriving DecidableEq

/-- deleteQuote (lines 196-220): obtain a token, load the metadata
record (to discover the rendered-document path), delete the rendered
document, then delete the metadata document.  The optional customerId
parameter is bound but never read.  The last component records the
paths of the delete calls that were issued, in order.  The branch for
a non-json load result is unreachable because the format passed is
json; had it been reached, metadata.file_path would be undefined and
the remote delete of that path would fail. -/
def deleteQuote (st : TokenState) (store : Store) (quoteId : String)
    (customerId : Option String) (env : RemoteEnv) (now : Int) :
    TokenState × Store × Except String DeleteEnvelope × List String :=
  let gv := getValidToken st now env.refreshOutcome
  match gv.2 with
  | Except.error e =>
      (gv.1, store, Except.error ("Failed to delete quote: " ++ e), [])
  | Except.ok _token =>
      let lq := loadQuote gv.1 store quoteId "json" env now
      match lq.2 with
      | Except.error e =>
          (lq.1, store, Except.error ("Failed to delete quote: " ++ e), [])
      | Except.ok (LoadResult.html _) =>
          (lq.1, store, Except.error "Failed to delete quote: missing file path", [])
      | Except.ok (LoadResult.meta metadata) =>
          match deleteFile store metadata.file_path env with
          | Except.error e =>
              (lq.1, store, Except.error ("Failed to delete quote: " ++ e),
                [metadata.file_path])
          | Except.ok store1 =>
              let metadataPath := "/dtf-quotes/" ++ quoteId ++ "_metadata.json"
              match deleteFile store1 metadataPath env with
              | Except.error e =>
                  (lq.1, store1, Except.error ("Failed to delete quote: " ++ e),
                    [metadata.file_path, metadataPath])
              | Except.ok store2 =>
                  (lq.1, store2, Except.ok
                    { success := true, message := "Quote deleted successfully",
                      deleted_quote_id := quoteId },
                    [metadata.file_path, metadataPath])

/-- The startsWith test on strings, computed on the character lists so
that it evaluates by reduction. -/
def strStartsWith (s pre : String) : Bool := pre.data.isPrefixOf s.data

/-- The endsWith test on strings, computed on the character lists so
that it evaluates by reduction. -/
def strEndsWith (s suf : String) : Bool := suf.data.reverse.isPrefixOf s.data.reverse

/-- The entries files/list_folder returns for the non-recursive listing
of /dtf-quotes: the files stored directly under that folder, each with
its bare name.  The remote store resolves paths case-insensitively, so
path_lower designates the same file as the stored path. -/
def listFolderEntries (store : Store) : List Entry :=
  (store.filter (fun p => strStartsWith p.1 "/dtf-quotes/")).map
    (fun p => { name := p.1.drop 12, path_lower := p.1 })

/-- Stable insertion step for the newest-first sort (line 969): insert
m before the first element whose creation date does not exceed it. -/
def insertDesc (m : QuoteMeta) : List QuoteMeta → List QuoteMeta
  | [] => [m]
  | x :: xs =>
      if x.date_created ≤ m.date_created then m :: x :: xs
      else x :: insertDesc m xs

/-- The newest-first stable sort applied by scanDropboxQuotes. -/
def sortByDateDesc (l : List QuoteMeta) : List QuoteMeta :=
  l.foldr insertDesc []

/-- scanDropboxQuotes (lines 937-977): list /dtf-quotes, keep the
entries named like metadata files, download and parse each (skipping
any that fail), keep those whose customer_id equals the requested one,
and sort newest first.  Both a listing failure and the outer catch
yield an empty list. -/
def scanDropboxQuotes (store : Store) (customerId : String) (env : RemoteEnv) :
    List QuoteMeta :=
  match env.listFail with
  | some _ => []
  | none =>
      let metadataFiles := (listFolderEntries store).filter
        (fun entry => strEndsWith entry.name "_metadata.json")
      let quotes := metadataFiles.filterMap (fun file =>
        match downloadFile store file.path_lower env with
        | Except.error _ => none
        | Except.ok content =>
            match parseQuoteMeta content with
            | Except.error _ => none
            | Except.ok m =>
                if m.customer_id == customerId then some m else none)
      sortByDateDesc quotes

/-- A quote as returned by loadCustomerQuotes: the stored metadata with
date_created replaced by its locale-formatted rendering. -/
structure CustomerQuote where
  id : String
  quote_name : String
  customer_id : String
  customer_email : Option String
  date_created : String
  data : List (String × String)
  locations : List Location
  total_transfers : Int
  pricing : List (String × String)
  file_path : String
  last_updated : Int
deriving DecidableEq

/-- The spread-plus-reformat applied to each scanned quote
(lines 182-185). -/
def toCustomerQuote (env : RemoteEnv) (m : QuoteMeta) : CustomerQuote :=
  { id := m.id, quote_name := m.quote_name, customer_id := m.customer_id,
    customer_email := m.customer_email,
    date_created := env.localeFormat m.date_created,
    data := m.data, locations := m.locations,
    total_transfers := m.total_transfers, pricing := m.pricing,
    file_path := m.file_path, last_updated := m.last_updated }

/-- loadCustomerQuotes (lines 175-191): obtain a token, scan the quotes
folder, and reformat each creation date.  The catch block turns any
failure into an empty list, so the promise never rejects. -/
def loadCustomerQuotes (st : TokenState) (store : Store) (customerId : String)
    (env : RemoteEnv) (now : Int) :
    TokenState × Except String (List CustomerQuote) :=
  let gv := getValidToken st now env.refreshOutcome
  match gv.2 with
  | Except.error _ => (gv.1, Except.ok [])
  | Except.ok _token =>
      (gv.1, Except.ok
        ((scanDropboxQuotes store customerId env).map (toCustomerQuote env)))

/-- loadCustomerLogo (lines 241-254): obtain a token, download and
parse the logo metadata document scoped by customer; the catch block
turns every failure into a null result. -/
def loadCustomerLogo (st : TokenState) (store : Store) (customerId : String)
    (env : RemoteEnv) (now : Int) : TokenState × Option LogoData :=
  let gv := getValidToken st now env.refreshOutcome
  match gv.2 with
  | Except.error _ => (gv.1, none)
  | Except.ok _token =>
      let logoMetadataPath := "/customer_logos/" ++ customerId ++ "/logo_metadata.json"
      match downloadFile store logoMetadataPath env with
      | Except.error _ => (gv.1, none)
      | Except.ok content =>
          match parseLogoData content with
          | Except.error _ => (gv.1, none)
          | Except.ok logoData => (gv.1, some logoData)

/-- A token state holding a still-fresh cached token. -/
def stFresh : TokenState :=
  { appKey := some "key", appSecret := some "secret",
    refreshToken := some "refresh", accessToken := some "token-abc",
    tokenExpiresAt := some (JSDate.valid 1000000000) }

/-- A token state with no cached token at all. -/
def stNoToken : TokenState :=
  { appKey := some "key", appSecret := some "secret",
    refreshToken := some "refresh", accessToken := none,
    tokenExpiresAt := none }

/-- A token state caching a still-valid token, used to observe whether a
failed refresh preserves it. -/
def stCached : TokenState :=
  { appKey := some "key", appSecret := some "secret",
    refreshToken := some "refresh", accessToken := some "cached-token",
    tokenExpiresAt := some (JSDate.valid 900000000) }

/-- A remote environment in which every call succeeds. -/
def benignEnv : RemoteEnv :=
  { refreshOutcome := RefreshOutcome.success (some "fresh-token") (some 14400),
    uploadFail := fun _ => none,
    downloadFail := fun _ => none,
    deleteFail := fun _ => none,
    listFail := none,
    createLinkResult := fun _ => Except.ok "https://dbx.example/s/abc?dl=0",
    listLinksResult := fun _ => Except.ok [],
    localeFormat := fun n => toString n }

/-- Claim C1 counterexample: the state whose accessToken is the empty
string is a token state with accessToken set and an expiry far beyond
the buffer, yet refreshTokenIfNeeded performs one refresh call instead
of zero, because the JavaScript truthiness test !this.accessToken
also fires on the empty string. -/
theorem refreshTokenIfNeeded_emptyToken_refutes :
    (let stEmpty : TokenState :=
      { appKey := some "key", appSecret := some "secret",
        refreshToken := some "refresh", accessToken := some "",
        tokenExpiresAt := some (JSDate.valid 1000000000) }
     stEmpty.accessToken.isSome = true ∧
       stEmpty.tokenExpiresAt = some (JSDate.valid 1000000000) ∧
       (0 : Int) < 1000000000 - 600000 ∧
       (refreshTokenIfNeeded stEmpty 0
           (RefreshOutcome.success (some "new") (some 14400))).2.2 = 1) := by
  refine ⟨rfl, rfl, by decide, rfl⟩

/-- Claim C1 (amended): when accessToken is unset, or tokenExpiresAt is
unset, or now has reached expiry minus the 10-minute buffer,
refreshTokenIfNeeded performs exactly one refresh call; when
accessToken is set to a NON-EMPTY string and now is strictly inside
the buffered validity window, it performs zero refresh calls and
leaves the token state unchanged. -/
theorem refreshTokenIfNeeded_refresh_policy (st : TokenState) (now : Int)
    (o : RefreshOutcome) :
    ((st.accessToken = none ∨ st.tokenExpiresAt = none ∨
        (∃ ms, st.tokenExpiresAt = some (JSDate.valid ms) ∧ ms - 600000 ≤ now)) →
      (refreshTokenIfNeeded st now o).2.2 = 1) ∧
    (∀ s ms, st.accessToken = some s → s ≠ "" →
      st.tokenExpiresAt = some (JSDate.valid ms) → now < ms - 600000 →
      refreshTokenIfNeeded st now o = (st, Except.ok st.accessToken, 0)) := by
  constructor
  · intro h
    have hstale : tokenStale st now = true := by
      unfold tokenStale
      rcases h with h | h | ⟨ms, h1, h2⟩
      · simp [h, jsFalsy]
      · simp [h]
      · simp [h1, h2]
    unfold refreshTokenIfNeeded
    rw [hstale]
    simp only [if_true]
    cases hr : (refreshAccessToken st now o).2 <;> simp [hr]
  · intro s ms hs hs' hms hlt
    have h1 : jsFalsy st.accessToken = false := by
      rw [hs]
      unfold jsFalsy
      exact beq_eq_false_iff_ne.mpr hs'
    have hstale : tokenStale st now = false := by
      unfold tokenStale
      rw [hms] at *
      simp [h1, hms]
      omega
    unfold refreshTokenIfNeeded
    rw [hstale]
    simp

/-- Claim C1 witness: an unset token triggers one refresh; the fresh
non-empty token at stFresh triggers none and is untouched. -/
theorem refreshTokenIfNeeded_refresh_policy_witness :
    (refreshTokenIfNeeded stNoToken 0
        (RefreshOutcome.success (some "new") (some 14400))).2.2 = 1 ∧
    refreshTokenIfNeeded stFresh 0 benignEnv.refreshOutcome =
      (stFresh, Except.ok stFresh.accessToken, 0) := by
  constructor
  · exact (refreshTokenIfNeeded_refresh_policy stNoToken 0 _).1 (Or.inl rfl)
  · exact (refreshTokenIfNeeded_refresh_policy stFresh 0 _).2 "token-abc"
      1000000000 rfl (by decide) rfl (by decide)

/-- Claim C2 counterexample: a 2xx exchange response whose body lacks
access_token is a malformed-body failure, yet refreshAccessToken does
not raise (it resolves with an undefined token) and it clobbers the
previously stored accessToken. -/
theorem refreshAccessToken_malformedBody_refutes :
    stCached.accessToken = some "cached-token" ∧
    (refreshAccessToken stCached 0 (RefreshOutcome.success none (some 14400))).2 =
      Except.ok none ∧
    (refreshAccessToken stCached 0
        (RefreshOutcome.success none (some 14400))).1.accessToken = none := by
  exact ⟨rfl, rfl, rfl⟩

/-- Claim C2 (amended): when the exchange REQUEST fails (network error
or non-2xx status, so the HTTP client throws) and the credentials are
configured, refreshAccessToken raises an error carrying the upstream
detail and leaves accessToken and tokenExpiresAt unchanged.  A 2xx
response with a malformed body can instead mutate state and even
resolve without raising. -/
theorem refreshAccessToken_httpError_preserves_state (st : TokenState)
    (now : Int) (msg : String) (hc : credsPresent st = true) :
    refreshAccessToken st now (RefreshOutcome.httpError msg) =
      (st, Except.error ("Failed to refresh token: " ++ msg)) := by
  unfold refreshAccessToken
  simp [hc]

/-- Claim C2 witness: a concrete 400-status failure at stCached. -/
theorem refreshAccessToken_httpError_preserves_state_witness :
    refreshAccessToken stCached 0
        (RefreshOutcome.httpError "Request failed with status code 400") =
      (stCached, Except.error
        ("Failed to refresh token: " ++ "Request failed with status code 400")) :=
  refreshAccessToken_httpError_preserves_state stCached 0
    "Request failed with status code 400" (by decide)

/-- The quote record of the concrete scenario of claim C8. -/
def sampleQuote : QuoteData :=
  { id := "q1", quote_name := "Order #1", customer_id := "c1",
    customer_email := none, date_created := 0, data := [], locations := [],
    total_transfers := 50, pricing := [] }

/-- Claim C8: saving the quote with id q1, name Order #1, customer c1
and 50 total transfers resolves to a success envelope with quote_id
q1, file path /dtf-quotes/Order__1_q1.html (non-alphanumeric name
characters sanitized to underscores) and a metadata record carrying
total_transfers 50. -/
theorem saveQuote_concrete_scenario :
    ∃ sv, (saveQuote stFresh [] sampleQuote false benignEnv 0).2.2 = Except.ok sv ∧
      sv.success = true ∧ sv.quote_id = "q1" ∧
      sv.file_path = "/dtf-quotes/Order__1_q1.html" ∧
      sv.metadata.total_transfers = 50 := by
  refine ⟨_, rfl, rfl, rfl, by decide, rfl⟩

/-- Claim C9: the optional customerId argument of deleteQuote is never
read, so any two values of it produce identical remote-call sequences,
state, store and result. -/
theorem deleteQuote_customerId_irrelevant (st : TokenState) (store : Store)
    (quoteId : String) (c1 c2 : Option String) (env : RemoteEnv) (now : Int) :
    deleteQuote st store quoteId c1 env now =
      deleteQuote st store quoteId c2 env now := rfl

lemma loadQuote_metadata_missing (st : TokenState) (store : Store)
    (quoteId : String) (format : String) (env : RemoteEnv) (now : Int)
    (h : storeLookup store ("/dtf-quotes/" ++ quoteId ++ "_metadata.json") = none) :
    ∃ e, (loadQuote st store quoteId format env now).2 = Except.error e := by
  unfold loadQuote
  cases hgv : (getValidToken st now env.refreshOutcome).2 with
  | error e => exact ⟨"Failed to load quote: " ++ e, by simp [hgv]⟩
  | ok tok =>
      cases hdf : env.downloadFail ("/dtf-quotes/" ++ quoteId ++ "_metadata.json") with
      | some e =>
          exact ⟨"Failed to load quote: " ++ e, by simp [hgv, downloadFile, hdf]⟩
      | none =>
          exact ⟨"Failed to load quote: " ++
            ("path/not_found/" ++ ("/dtf-quotes/" ++ quoteId ++ "_metadata.json")),
            by simp [hgv, downloadFile, hdf, h]⟩

/-- Claim C6: when the quote metadata document does not exist,
deleteQuote fails before any delete call is issued: the issued-delete
trace is empty and the remote store is unchanged. -/
theorem deleteQuote_missing_metadata_no_deletes (st : TokenState) (store : Store)
    (quoteId : String) (customerId : Option String) (env : RemoteEnv) (now : Int)
    (h : storeLookup store ("/dtf-quotes/" ++ quoteId ++ "_metadata.json") = none) :
    (deleteQuote st store quoteId customerId env now).2.1 = store ∧
    (∃ e, (deleteQuote st store quoteId customerId env now).2.2.1 = Except.error e) ∧
    (deleteQuote st store quoteId customerId env now).2.2.2 = [] := by
  unfold deleteQuote
  cases hgv : (getValidToken st now env.refreshOutcome).2 with
  | error e =>
      exact ⟨by simp [hgv], ⟨"Failed to delete quote: " ++ e, by simp [hgv]⟩,
        by simp [hgv]⟩
  | ok tok =>
      obtain ⟨e, he⟩ := loadQuote_metadata_missing
        (getValidToken st now env.refreshOutcome).1 store quoteId "json" env now h
      exact ⟨by simp [hgv, he], ⟨"Failed to delete quote: " ++ e, by simp [hgv, he]⟩,
        by simp [hgv, he]⟩

/-- Claim C6 witness: deleting from an empty store issues no deletes. -/
theorem deleteQuote_missing_metadata_no_deletes_witness :
    (deleteQuote stFresh [] "qx" none benignEnv 0).2.1 = ([] : Store) ∧
    (∃ e, (deleteQuote stFresh [] "qx" none benignEnv 0).2.2.1 = Except.error e) ∧
    (deleteQuote stFresh [] "qx" none benignEnv 0).2.2.2 = [] :=
  deleteQuote_missing_metadata_no_deletes stFresh [] "qx" none benignEnv 0 rfl

/-- Claim C7: when the rendered-document and metadata uploads succeed,
a failing shared-link creation is swallowed: saveQuote still resolves
to a success envelope whose download_url is null. -/
theorem saveQuote_shareFailure_swallowed (st : TokenState) (store : Store)
    (q : QuoteData) (isUpdate : Bool) (env : RemoteEnv) (now : Int) (e : String)
    (hauth : authOk st now env.refreshOutcome)
    (hup1 : env.uploadFail ("/dtf-quotes/" ++ generateFileName q) = none)
    (hup2 : env.uploadFail ("/dtf-quotes/" ++ q.id ++ "_metadata.json") = none)
    (hshare : createSharedLink ("/dtf-quotes/" ++ generateFileName q) env =
      Except.error e) :
    ∃ st' store' sv,
      saveQuote st store q isUpdate env now = (st', store', Except.ok sv) ∧
      sv.success = true ∧ sv.download_url = none := by
  obtain ⟨st1, tok, hgv, _⟩ := getValidToken_ok st now env.refreshOutcome hauth
  unfold saveQuote
  rw [hgv]
  simp [uploadFile, hup1, hup2, hshare]
  exact ⟨_, _, _, ⟨rfl, rfl, rfl⟩, rfl, rfl⟩

/-- A remote environment in which both sharing endpoints fail. -/
def shareFailEnv : RemoteEnv :=
  { benignEnv with
    createLinkResult := fun _ => Except.error "shared_link_already_exists",
    listLinksResult := fun _ => Except.error "not_found" }

/-- Claim C7 witness: a concrete save whose share-link creation fails
still succeeds with a null download_url. -/
theorem saveQuote_shareFailure_swallowed_witness :
    ∃ st' store' sv,
      saveQuote stFresh [] sampleQuote false shareFailEnv 0 =
        (st', store', Except.ok sv) ∧
      sv.success = true ∧ sv.download_url = none :=
  saveQuote_shareFailure_swallowed stFresh [] sampleQuote false shareFailEnv 0
    "shared_link_already_exists" (Or.inl (by decide)) rfl rfl rfl

/-- Claim C10: loadCustomerLogo resolves to null on every failure, not
only on a missing document: a token-refresh failure, a forced download
failure, and a stored document that fails to parse as logo JSON each
yield null rather than an error. -/
theorem loadCustomerLogo_failures_yield_null :
    (∀ st store cid env now e,
        (getValidToken st now env.refreshOutcome).2 = Except.error e →
        (loadCustomerLogo st store cid env now).2 = none) ∧
    (∀ st store cid env now e,
        env.downloadFail ("/customer_logos/" ++ cid ++ "/logo_metadata.json") =
          some e →
        (loadCustomerLogo st store cid env now).2 = none) ∧
    (∀ st store cid env now s,
        env.downloadFail ("/customer_logos/" ++ cid ++ "/logo_metadata.json") =
          none →
        storeLookup store ("/customer_logos/" ++ cid ++ "/logo_metadata.json") =
          some (Content.doc s) →
        (loadCustomerLogo st store cid env now).2 = none) := by
  refine ⟨?_, ?_, ?_⟩
  · intro st store cid env now e hgv
    unfold loadCustomerLogo
    simp [hgv]
  · intro st store cid env now e hdf
    unfold loadCustomerLogo
    cases hgv : (getValidToken st now env.refreshOutcome).2 with
    | error e' => simp [hgv]
    | ok tok => simp [hgv, downloadFile, hdf]
  · intro st store cid env now s hdf hl
    unfold loadCustomerLogo
    cases hgv : (getValidToken st now env.refreshOutcome).2 with
    | error e' => simp [hgv]
    | ok tok => simp [hgv, downloadFile, hdf, hl, parseLogoData]

/-- A remote environment whose token exchange always fails. -/
def refreshFailEnv : RemoteEnv :=
  { benignEnv with refreshOutcome := RefreshOutcome.httpError "getaddrinfo ENOTFOUND" }

/-- A remote environment in which downloading the c9 logo metadata
fails at the transport level. -/
def logoDownloadFailEnv : RemoteEnv :=
  { benignEnv with downloadFail := fun p =>
      if p = "/customer_logos/c9/logo_metadata.json" then some "network down"
      else none }

/-- Claim C10 witness: the three failure modes at concrete inputs. -/
theorem loadCustomerLogo_failures_yield_null_witness :
    (loadCustomerLogo stNoToken [] "c9" refreshFailEnv 0).2 = none ∧
    (loadCustomerLogo stFresh [] "c9" logoDownloadFailEnv 0).2 = none ∧
    (loadCustomerLogo stFresh
        [("/customer_logos/c9/logo_metadata.json", Content.doc "<p>")]
        "c9" benignEnv 0).2 = none := by
  refine ⟨?_, ?_, ?_⟩
  · exact loadCustomerLogo_failures_yield_null.1 stNoToken [] "c9" refreshFailEnv 0
      "Failed to refresh token: getaddrinfo ENOTFOUND" rfl
  · exact loadCustomerLogo_failures_yield_null.2.1 stFresh [] "c9"
      logoDownloadFailEnv 0 "network down" (by decide)
  · exact loadCustomerLogo_failures_yield_null.2.2 stFresh
      [("/customer_logos/c9/logo_metadata.json", Content.doc "<p>")] "c9"
      benignEnv 0 "<p>" rfl (by decide)

/-- A remote environment in which downloading the s1 metadata file
fails at the transport level and everything else succeeds. -/
def skipEnv : RemoteEnv :=
  { benignEnv with downloadFail := fun p =>
      if p = "/dtf-quotes/s1_metadata.json" then some "could not load" else none }

/-- Claim C5: loadCustomerQuotes never propagates a remote failure: it
always resolves; a directory-listing failure yields an empty list; and
a failing individual metadata file is skipped while the remaining
records are still returned. -/
theorem loadCustomerQuotes_never_rejects :
    (∀ st store cid env now, ∃ l,
        (loadCustomerQuotes st store cid env now).2 = Except.ok l) ∧
    (∀ st store cid env now e, env.listFail = some e →
        (loadCustomerQuotes st store cid env now).2 = Except.ok []) ∧
    (∀ m1 m2 cid, m2.customer_id = cid →
        (loadCustomerQuotes stFresh
            [("/dtf-quotes/s1_metadata.json", Content.metaJson m1),
             ("/dtf-quotes/s2_metadata.json", Content.metaJson m2)]
            cid skipEnv 0).2 =
          Except.ok [toCustomerQuote skipEnv m2]) := by
  refine ⟨?_, ?_, ?_⟩
  · intro st store cid env now
    unfold loadCustomerQuotes
    cases hgv : (getValidToken st now env.refreshOutcome).2 with
    | error e => exact ⟨[], by simp [hgv]⟩
    | ok tok =>
        exact ⟨(scanDropboxQuotes store cid env).map (toCustomerQuote env),
          by simp [hgv]⟩
  · intro st store cid env now e hl
    unfold loadCustomerQuotes
    cases hgv : (getValidToken st now env.refreshOutcome).2 with
    | error e' => simp [hgv]
    | ok tok => simp [hgv, scanDropboxQuotes, hl]
  · intro m1 m2 cid hm2
    subst hm2
    have hgv : getValidToken stFresh 0 skipEnv.refreshOutcome =
        (stFresh, Except.ok (some "token-abc")) := rfl
    unfold loadCustomerQuotes
    rw [hgv]
    simp [scanDropboxQuotes, listFolderEntries, strStartsWith, strEndsWith,
      skipEnv, benignEnv, downloadFile, storeLookup, parseQuoteMeta,
      sortByDateDesc, insertDesc]

/-- Claim C5 witness: the three parts at concrete inputs. -/
theorem loadCustomerQuotes_never_rejects_witness :
    (∃ l, (loadCustomerQuotes stFresh [] "c1" benignEnv 0).2 = Except.ok l) ∧
    (loadCustomerQuotes stFresh [] "c1"
        { benignEnv with listFail := some "list_folder failed" } 0).2 =
      Except.ok [] ∧
    (loadCustomerQuotes stFresh
        [("/dtf-quotes/s1_metadata.json",
            Content.metaJson (quoteMetadataOf sampleQuote "/p1" 0)),
         ("/dtf-quotes/s2_metadata.json",
            Content.metaJson (quoteMetadataOf sampleQuote "/p2" 0))]
        "c1" skipEnv 0).2 =
      Except.ok [toCustomerQuote skipEnv (quoteMetadataOf sampleQuote "/p2" 0)] := by
  refine ⟨?_, ?_, ?_⟩
  · exact loadCustomerQuotes_never_rejects.1 stFresh [] "c1" benignEnv 0
  · exact loadCustomerQuotes_never_rejects.2.1 stFresh [] "c1"
      { benignEnv with listFail := some "list_folder failed" } 0
      "list_folder failed" rfl
  · exact loadCustomerQuotes_never_rejects.2.2
      (quoteMetadataOf sampleQuote "/p1" 0) (quoteMetadataOf sampleQuote "/p2" 0)
      "c1" rfl

/-- Claim C3: saving a quote then loading it by the same identifier in
json format returns a record whose fields equal the saved ones, with
last_updated refreshed to the save time. -/
theorem saveQuote_loadQuote_roundtrip (st : TokenState) (store : Store)
    (q : QuoteData) (env : RemoteEnv) (now : Int)
    (hauth : authOk st now env.refreshOutcome)
    (hup1 : env.uploadFail ("/dtf-quotes/" ++ generateFileName q) = none)
    (hup2 : env.uploadFail ("/dtf-quotes/" ++ q.id ++ "_metadata.json") = none)
    (hdl : env.downloadFail ("/dtf-quotes/" ++ q.id ++ "_metadata.json") = none) :
    ∃ st1 store1 sv st2 m,
      saveQuote st store q false env now = (st1, store1, Except.ok sv) ∧
      loadQuote st1 store1 q.id "json" env now =
        (st2, Except.ok (LoadResult.meta m)) ∧
      m.id = q.id ∧ m.quote_name = q.quote_name ∧
      m.customer_id = q.customer_id ∧ m.customer_email = q.customer_email ∧
      m.date_created = q.date_created ∧ m.data = q.data ∧
      m.locations = q.locations ∧ m.total_transfers = q.total_transfers ∧
      m.pricing = q.pricing ∧ m.file_path = sv.file_path ∧
      m.last_updated = now := by
  obtain ⟨st1, tok, hgv, hauth1⟩ := getValidToken_ok st now env.refreshOutcome hauth
  obtain ⟨st2, tok2, hgv2, _⟩ := getValidToken_ok st1 now env.refreshOutcome hauth1
  have hload : loadQuote st1
      (storeInsert (storeInsert store ("/dtf-quotes/" ++ generateFileName q)
          (Content.doc (generateQuoteHtml q)))
        ("/dtf-quotes/" ++ q.id ++ "_metadata.json")
        (Content.metaJson
          (quoteMetadataOf q ("/dtf-quotes/" ++ generateFileName q) now)))
      q.id "json" env now =
      (st2, Except.ok (LoadResult.meta
        (quoteMetadataOf q ("/dtf-quotes/" ++ generateFileName q) now))) := by
    unfold loadQuote
    rw [hgv2]
    simp [downloadFile, hdl, storeLookup_insert_self, parseQuoteMeta]
  unfold saveQuote
  rw [hgv]
  simp only [uploadFile, hup1, hup2]
  exact ⟨st1, _, _, st2,
    quoteMetadataOf q ("/dtf-quotes/" ++ generateFileName q) now,
    rfl, hload, rfl, rfl, rfl, rfl, rfl, rfl, rfl, rfl, rfl, rfl, rfl⟩

/-- Claim C3 witness: the concrete sample quote round-trips. -/
theorem saveQuote_loadQuote_roundtrip_witness :
    ∃ st1 store1 sv st2 m,
      saveQuote stFresh [] sampleQuote false benignEnv 0 =
        (st1, store1, Except.ok sv) ∧
      loadQuote st1 store1 sampleQuote.id "json" benignEnv 0 =
        (st2, Except.ok (LoadResult.meta m)) ∧
      m.id = sampleQuote.id ∧ m.quote_name = sampleQuote.quote_name ∧
      m.customer_id = sampleQuote.customer_id ∧
      m.customer_email = sampleQuote.customer_email ∧
      m.date_created = sampleQuote.date_created ∧ m.data = sampleQuote.data ∧
      m.locations = sampleQuote.locations ∧
      m.total_transfers = sampleQuote.total_transfers ∧
      m.pricing = sampleQuote.pricing ∧ m.file_path = sv.file_path ∧
      m.last_updated = 0 :=
  saveQuote_loadQuote_roundtrip stFresh [] sampleQuote benignEnv 0
    (Or.inl (by decide)) rfl rfl rfl

/-- Claim C4: with exactly three stored metadata records owned by
customers A, A and B and distinct creation timestamps,
loadCustomerQuotes for A returns exactly the two A records newest
first and no record of B. -/
theorem loadCustomerQuotes_filters_and_sorts (m1 m2 m3 : QuoteMeta) (A B : String)
    (hA1 : m1.customer_id = A) (hA2 : m2.customer_id = A) (hB : m3.customer_id = B)
    (hBA : B ≠ A) (hd : m1.date_created < m2.date_created) :
    (loadCustomerQuotes stFresh
        [("/dtf-quotes/a1_metadata.json", Content.metaJson m1),
         ("/dtf-quotes/a2_metadata.json", Content.metaJson m2),
         ("/dtf-quotes/b1_metadata.json", Content.metaJson m3)]
        A benignEnv 0).2 =
      Except.ok [toCustomerQuote benignEnv m2, toCustomerQuote benignEnv m1] := by
  have hgv : getValidToken stFresh 0 benignEnv.refreshOutcome =
      (stFresh, Except.ok (some "token-abc")) := rfl
  unfold loadCustomerQuotes
  rw [hgv]
  simp [scanDropboxQuotes, listFolderEntries, strStartsWith, strEndsWith,
    benignEnv, downloadFile, storeLookup, parseQuoteMeta, hA1, hA2, hB, hBA,
    beq_eq_false_iff_ne.mpr hBA, sortByDateDesc, insertDesc, not_le.mpr hd]

/-- Claim C4 witness: three concrete records with customers c1, c1, c2
and dates 10, 20, 15. -/
theorem loadCustomerQuotes_filters_and_sorts_witness :
    (loadCustomerQuotes stFresh
        [("/dtf-quotes/a1_metadata.json",
            Content.metaJson (quoteMetadataOf sampleQuote "/p1" 10)),
         ("/dtf-quotes/a2_metadata.json",
            Content.metaJson (quoteMetadataOf
              { sampleQuote with date_created := 20 } "/p2" 20)),
         ("/dtf-quotes/b1_metadata.json",
            Content.metaJson (quoteMetadataOf
              { sampleQuote with customer_id := "c2", date_created := 15 } "/p3" 15))]
        "c1" benignEnv 0).2 =
      Except.ok [toCustomerQuote benignEnv
          (quoteMetadataOf { sampleQuote with date_created := 20 } "/p2" 20),
        toCustomerQuote benignEnv (quoteMetadataOf sampleQuote "/p1" 10)] := by
  have h10 : (quoteMetadataOf sampleQuote "/p1" 10).date_created <
      (quoteMetadataOf { sampleQuote with date_created := 20 } "/p2" 20).date_created := by
    decide
  exact loadCustomerQuotes_filters_and_sorts
    (quoteMetadataOf sampleQuote "/p1" 10)
    (quoteMetadataOf { sampleQuote with date_created := 20 } "/p2" 20)
    (quoteMetadataOf { sampleQuote with customer_id := "c2", date_created := 15 } "/p3" 15)
    "c1" "c2" rfl rfl rfl (by decide) h10
